import Mathlib

/-!
Verification of the sentiment aggregation and peer-ranking pipeline of
src/src/MarketSentimentAnalyzer.tsx.

Shallow embedding conventions:
- JS numbers carrying sentiment scores and prices are modelled as rationals.
- Timestamps are integer seconds since the epoch; the local-calendar date
  truncation performed by formatDate and toLocaleDateString is modelled by
  the epoch-day number (floor division of the timestamp by 86400).  The
  string key produced by formatDate omits the year, but for every window
  reachable in the source (1 to 30 days, see TIME_RANGES) the keys of
  distinct days in one window are distinct, which the day number preserves.
- Each call to Math.random() is modelled by reading an explicit stream of
  rational draws, passed as a function from the call index; distinct call
  sites receive distinct streams.  Determinism claims quantify over the
  streams.
- External HTTP calls are modelled by their frozen outcomes: Option for
  calls whose wrapper swallows errors and returns null, Except for calls
  that can reject.
- JS Object string keys preserve insertion order, so the dailyData object
  is an association list built in day order and updated in place.
- Array.prototype.sort with a comparator is a stable sort; since a stable
  sorted permutation is unique, it is modelled by List.insertionSort on
  the relation (comparator result is nonpositive), which Mathlib proves
  stable and sorting.
-/

namespace MSA

/-- The sentiment attached to a news item: classifier label and score
(interface NewsItem.sentiment in the source). -/
structure Sentiment where
  label : String
  score : ℚ
deriving DecidableEq

/-- interface NewsItem of the source: datetime is in seconds since epoch;
sentiment is optional and attached after scoring. -/
structure NewsItem where
  datetime : Int
  headline : String
  source : String
  url : String
  sentiment : Option Sentiment
deriving DecidableEq

/-- interface StockQuote of the source. -/
structure StockQuote where
  c : ℚ
  h : ℚ
  l : ℚ
  o : ℚ
  pc : ℚ
  t : Int
deriving DecidableEq

/-- interface SentimentData of the source: one record per calendar day. -/
structure SentimentData where
  date : Int
  avgSentiment : ℚ
  stockPrice : ℚ
  volume : Nat
deriving DecidableEq

/-- The candle data returned by fetchHistoricalData: parallel arrays of
timestamps and closing prices. -/
structure HistoricalData where
  t : List Int
  c : List ℚ
deriving DecidableEq

/-- One value of the dailyData object in processSentimentData:
accumulated signed sentiments and volume for one day. -/
structure DayBucket where
  sentiments : List ℚ
  volume : Nat
deriving DecidableEq

/-- Local-calendar day of a timestamp in seconds (see the embedding notes:
this models the day truncation done by formatDate). -/
def epochDay (t : Int) : Int := Int.fdiv t 86400

/-- JS string disjunction a || b: empty strings are falsy. -/
def orElseStr (a b : String) : String := if a = "" then b else a

/-- Signed value of an attached sentiment, source lines 254 to 258:
POSITIVE maps to the score, NEGATIVE to its negation, anything else to 0. -/
def signedValueProcess (s : Sentiment) : ℚ :=
  if s.label = "POSITIVE" then s.score
  else if s.label = "NEGATIVE" then -s.score
  else 0

/-- Signed value of a news item, source lines 455 to 460 (also lines 340
to 345 and 544 to 548, which repeat the same text): a missing sentiment
contributes 0, otherwise the same label dispatch as signedValueProcess. -/
def itemSignedValue (item : NewsItem) : ℚ :=
  match item.sentiment with
  | none => 0
  | some s =>
    if s.label = "POSITIVE" then s.score
    else if s.label = "NEGATIVE" then -s.score
    else 0

/-- Mean of a list of signed values with the source guard
(length > 0 ? sum / length : 0), used at lines 289 to 291, 347 to 349 and
462 to 464. -/
def meanOrZero (l : List ℚ) : ℚ :=
  if 0 < l.length then l.sum / l.length else 0

/-- parseFloat(x.toFixed(2)): round to two decimal places. -/
def round2 (q : ℚ) : ℚ := (⌊q * 100 + 1 / 2⌋ : ℚ) / 100

/-- The initialization loop of processSentimentData (lines 241 to 246):
one empty bucket per day, counted from fromDay, in ascending order. -/
def initBuckets (fromDay : Int) : Nat → List (Int × DayBucket)
  | 0 => []
  | n + 1 => (fromDay, ⟨[], 0⟩) :: initBuckets (fromDay + 1) n

/-- Buckets of the window, one per day from fromDay to toDay inclusive
(the while loop runs while currentDate is at most toDate). -/
def bucketsInWindow (fromDay toDay : Int) : List (Int × DayBucket) :=
  initBuckets fromDay (toDay + 1 - fromDay).toNat

/-- One step of the news loop of processSentimentData (lines 249 to 261):
items without sentiment are skipped; an item whose day has a bucket gets
its signed value appended and the volume incremented; other days are
silently dropped. -/
def addItem (m : List (Int × DayBucket)) (item : NewsItem) : List (Int × DayBucket) :=
  match item.sentiment with
  | none => m
  | some s =>
    let d := epochDay item.datetime
    m.map (fun p =>
      if p.1 = d then (p.1, ⟨p.2.sentiments ++ [signedValueProcess s], p.2.volume + 1⟩)
      else p)

/-- The dailyData object after the initialization and news loops. -/
def bucketsAfterNews (news : List NewsItem) (fromDay toDay : Int) :
    List (Int × DayBucket) :=
  news.foldl addItem (bucketsInWindow fromDay toDay)

/-- Stock price selection for one day (lines 268 to 285): exact
calendar-day match in the candle data if available, otherwise a random
variation of the base price; without candle data, a wider random
variation.  r is the Math.random() draw for this bucket. -/
def priceForDay (hist : Option HistoricalData) (basePrice : ℚ) (d : Int) (r : ℚ) : ℚ :=
  match hist with
  | some h =>
    match h.t.findIdx? (fun ts => epochDay ts = d) with
    | some i => h.c.getD i 0
    | none => basePrice * (95 / 100 + r * (10 / 100))
  | none => basePrice * (9 / 10 + r * (2 / 10))

/-- The record built for one day by the final map of processSentimentData
(lines 287 to 294). -/
def mkRecord (hist : Option HistoricalData) (basePrice : ℚ)
    (p : Int × DayBucket) (r : ℚ) : SentimentData :=
  { date := p.1
    avgSentiment := meanOrZero p.2.sentiments
    stockPrice := round2 (priceForDay hist basePrice p.1 r)
    volume := p.2.volume }

/-- The final map of processSentimentData, consuming one random draw per
bucket in order. -/
def toRecords (hist : Option HistoricalData) (basePrice : ℚ) (rnd : Nat → ℚ) :
    Nat → List (Int × DayBucket) → List SentimentData
  | _, [] => []
  | i, p :: rest => mkRecord hist basePrice p (rnd i) :: toRecords hist basePrice rnd (i + 1) rest

/-- Ascending-date order used by the final sort of processSentimentData. -/
def dateLe (a b : SentimentData) : Prop := a.date ≤ b.date

instance : DecidableRel dateLe := fun a b => inferInstanceAs (Decidable (a.date ≤ b.date))

instance : IsTotal SentimentData dateLe := ⟨fun a b => Int.le_total a.date b.date⟩

instance : IsTrans SentimentData dateLe := ⟨fun _ _ _ h1 h2 => le_trans h1 h2⟩

/-- processSentimentData (lines 236 to 296): build one bucket per day of
the window, fold the news in, attach prices, and sort ascending by date.
The source derives the window from getDateRange(days); here the window is
the pair of its day bounds. -/
def processSentimentData (news : List NewsItem) (quote : StockQuote)
    (fromDay toDay : Int) (hist : Option HistoricalData) (rnd : Nat → ℚ) :
    List SentimentData :=
  (toRecords hist quote.c rnd 0 (bucketsAfterNews news fromDay toDay)).insertionSort dateLe

/-- interface CompanyProfile, restricted to the fields the pipeline reads
(name, finnhubIndustry, optional sector). -/
structure CompanyProfile where
  name : String
  finnhubIndustry : String
  sector : Option String
deriving DecidableEq

/-- interface CompanyWithSentiment of the source, as produced by the
ranking (symbol, name, aggregate sentiment, industry). -/
structure CompanyWithSentiment where
  symbol : String
  name : String
  sentiment : ℚ
  industry : String
deriving DecidableEq

/-- Frozen outcomes of the external calls made for one peer candidate:
fetchCompanyProfile swallows errors and returns null (Option), while
fetchNews can reject (Except). -/
structure PeerData where
  profile : Option CompanyProfile
  news : Except Unit (List NewsItem)

/-- Frozen outcomes of all external calls made by
findCompaniesBetterSentiment: the subject profile lookup (null on
failure), the peer-list API call (can reject), the companyProfile React
state read by the fallback of fetchPeerCompanies, the per-peer outcomes,
and the total result of analyzeSentiment per headline. -/
structure RankEnv where
  subjectProfile : Option CompanyProfile
  peersApi : Except Unit (List String)
  stateProfile : Option CompanyProfile
  peerData : String → PeerData
  classify : String → Sentiment

/-- fetchPeerCompanies (lines 158 to 178): on success filter out the
subject symbol; on failure fall back to a hardcoded sector table keyed by
the companyProfile state, or the empty list. -/
def fetchPeerCompanies (sym : String) (api : Except Unit (List String))
    (stateProfile : Option CompanyProfile) : List String :=
  match api with
  | .ok l => l.filter (fun peer => peer ≠ sym)
  | .error _ =>
    match stateProfile with
    | some p =>
      let sector := orElseStr p.finnhubIndustry (p.sector.getD "")
      if sector = "Technology" then
        (["MSFT", "GOOGL", "AAPL", "IBM"]).filter (fun s => s ≠ sym)
      else if sector = "Consumer Cyclical" ∨ sector = "Retail" then
        (["AMZN", "WMT", "TGT", "EBAY"]).filter (fun s => s ≠ sym)
      else if sector = "Automotive" then
        (["TSLA", "F", "GM", "TM"]).filter (fun s => s ≠ sym)
      else if sector = "Financial Services" then
        (["JPM", "BAC", "GS", "MS"]).filter (fun s => s ≠ sym)
      else []
    | none => []

/-- The per-peer async block of findCompaniesBetterSentiment (lines 318
to 366).  A rejected news fetch is the only way into the catch, which
returns the symbol as name, industry Unknown and a sentiment drawn as
Math.random() * 2 - 1; r is that random draw.  On the success path the
first 8 headlines are scored and averaged. -/
def processPeer (symbol : String) (pd : PeerData) (classify : String → Sentiment)
    (r : ℚ) : CompanyWithSentiment :=
  match pd.news with
  | .error _ => { symbol := symbol, name := symbol, sentiment := r * 2 - 1, industry := "Unknown" }
  | .ok news =>
    let name := match pd.profile with
      | some p => orElseStr p.name symbol
      | none => symbol
    let peerIndustry := match pd.profile with
      | some p => orElseStr p.finnhubIndustry (orElseStr (p.sector.getD "") "Unknown")
      | none => "Unknown"
    if news.length = 0 then
      { symbol := symbol, name := name, sentiment := 0, industry := peerIndustry }
    else
      let newsWithSentiment := (news.take 8).map
        (fun it => { it with sentiment := some (classify it.headline) })
      let sentiments := newsWithSentiment.map itemSignedValue
      { symbol := symbol, name := name, sentiment := meanOrZero sentiments,
        industry := peerIndustry }

/-- Map with the element index, starting at a given index (models the JS
map callbacks that receive the index, and sequential random draws). -/
def mapFrom (f : Nat → α → β) : Nat → List α → List β
  | _, [] => []
  | i, a :: l => f i a :: mapFrom f (i + 1) l

/-- The candidate list computed on the success path of
findCompaniesBetterSentiment: the peer list is capped at 6 and each
candidate is processed independently (lines 311 to 367).  rnd i is the
random draw available to the catch of candidate number i. -/
def peerCandidates (symbol : String) (env : RankEnv) (rnd : Nat → ℚ) :
    List CompanyWithSentiment :=
  mapFrom (fun i s => processPeer s (env.peerData s) env.classify (rnd i)) 0
    ((fetchPeerCompanies symbol env.peersApi env.stateProfile).take 6)

/-- Descending-sentiment order of the ranking sort comparator
(b.sentiment - a.sentiment is nonpositive). -/
def sentGe (a b : CompanyWithSentiment) : Prop := b.sentiment ≤ a.sentiment

instance : DecidableRel sentGe := fun a b => inferInstanceAs (Decidable (b.sentiment ≤ a.sentiment))

instance : IsTotal CompanyWithSentiment sentGe := ⟨fun a b => le_total b.sentiment a.sentiment⟩

instance : IsTrans CompanyWithSentiment sentGe := ⟨fun _ _ _ h1 h2 => le_trans h2 h1⟩

/-- One entry of the demoIndustries table (lines 379 to 404). -/
structure DemoCompany where
  name : String
  symbols : List String
deriving DecidableEq

/-- The demoIndustries lookup with its JS default
(demoIndustries[industry] || demoIndustries[Technology], line 418). -/
def demoIndustries (industry : String) : List DemoCompany :=
  if industry = "Technology" then
    [⟨"Microsoft Corp", ["MSFT"]⟩, ⟨"Alphabet Inc", ["GOOGL"]⟩,
     ⟨"Apple Inc", ["AAPL"]⟩, ⟨"Oracle Corp", ["ORCL"]⟩]
  else if industry = "Automotive" then
    [⟨"Tesla Inc", ["TSLA"]⟩, ⟨"Ford Motor Co", ["F"]⟩,
     ⟨"General Motors", ["GM"]⟩, ⟨"Toyota Motor Corp", ["TM"]⟩]
  else if industry = "Retail" then
    [⟨"Amazon.com Inc", ["AMZN"]⟩, ⟨"Walmart Inc", ["WMT"]⟩,
     ⟨"Target Corp", ["TGT"]⟩, ⟨"Costco Wholesale", ["COST"]⟩]
  else if industry = "Financial Services" then
    [⟨"JP Morgan Chase", ["JPM"]⟩, ⟨"Bank of America", ["BAC"]⟩,
     ⟨"Goldman Sachs", ["GS"]⟩, ⟨"Morgan Stanley", ["MS"]⟩]
  else
    [⟨"Microsoft Corp", ["MSFT"]⟩, ⟨"Alphabet Inc", ["GOOGL"]⟩,
     ⟨"Apple Inc", ["AAPL"]⟩, ⟨"Oracle Corp", ["ORCL"]⟩]

/-- The demo industry inferred from the subject symbol in the catch of
findCompaniesBetterSentiment (lines 407 to 415). -/
def demoIndustryOf (sym : String) : String :=
  if sym = "AAPL" ∨ sym = "MSFT" ∨ sym = "GOOGL" then "Technology"
  else if sym = "TSLA" ∨ sym = "F" ∨ sym = "GM" then "Automotive"
  else if sym = "AMZN" ∨ sym = "WMT" then "Retail"
  else if sym = "JPM" ∨ sym = "BAC" then "Financial Services"
  else "Technology"

/-- The value returned by the catch of findCompaniesBetterSentiment
(lines 375 to 430): up to 3 companies of the inferred demo industry,
excluding the subject, with sentiments baseline + 0.3 - 0.05 * index. -/
def demoBetterCompanies (sym : String) (baseline : ℚ) : List CompanyWithSentiment :=
  let industry := demoIndustryOf sym
  let industryCompanies := demoIndustries industry
  let otherCompanies := (industryCompanies.filter (fun c => ¬ sym ∈ c.symbols)).take 3
  mapFrom (fun i c =>
    { symbol := c.symbols.getD 0 "", name := c.name,
      sentiment := baseline + (3 / 10 - (i : ℚ) * (5 / 100)), industry := industry }) 0
    otherCompanies

/-- findCompaniesBetterSentiment (lines 299 to 431).  The only statement
of the try body that can throw is the explicit throw after a null subject
profile (fetchPeerCompanies and the per-peer blocks catch internally), so
the catch branch is taken exactly when the profile lookup fails.  On the
success path the candidates above the baseline are kept and sorted by the
comparator b.sentiment - a.sentiment (stable, no symbol tie-break). -/
def findCompaniesBetterSentiment (symbol : String) (baseline : ℚ)
    (env : RankEnv) (rnd : Nat → ℚ) : List CompanyWithSentiment :=
  match env.subjectProfile with
  | none => demoBetterCompanies symbol baseline
  | some _ =>
    ((peerCandidates symbol env rnd).filter
      (fun c => baseline < c.sentiment)).insertionSort sentGe

/-- The overall sentiment computed by fetchData over the scored news list
(lines 454 to 464), used as the peer-ranking baseline. -/
def currentSentimentOf (news : List NewsItem) : ℚ :=
  meanOrZero (news.map itemSignedValue)

/-- analyzeSentiment (lines 209 to 234).  The response of the classifier
call is frozen as an Except whose success value is the optional top
result; on any failure the catch fabricates a uniformly random label from
the closed label set and a random score in the upper half of the unit
interval.  rLabel and rScore are the two Math.random() draws of the
catch. -/
def analyzeSentiment (response : Except Unit (Option Sentiment))
    (rLabel rScore : ℚ) : Sentiment :=
  match response with
  | .ok topResult =>
    { label := match topResult with
        | some s => orElseStr s.label "NEUTRAL"
        | none => "NEUTRAL"
      score := match topResult with
        | some s => if s.score = 0 then 1 / 2 else s.score
        | none => 1 / 2 }
  | .error _ =>
    { label := (["POSITIVE", "NEGATIVE", "NEUTRAL"]).getD (⌊rLabel * 3⌋).toNat ""
      score := 1 / 2 + rScore * (1 / 2) }

/-- The component state written by one run of fetchData, as observed by
the presentation layer: the error field is the only degradation signal
the source exposes. -/
structure FetchResult where
  error : Option String
  newsData : List NewsItem
  stockQuote : StockQuote
  sentimentData : List SentimentData
  currentSentiment : ℚ
  companiesWithBetterSentiment : List CompanyWithSentiment

/-- The demo quote built in the catch of fetchData (lines 477 to 481);
r is the Math.random() draw of its current price. -/
def demoQuote (r : ℚ) (nowSec : Int) : StockQuote :=
  { c := 150 + r * 50, h := 180, l := 140, o := 155, pc := 148, t := nowSec }

/-- One demo news item of the catch of fetchData (lines 483 to 496):
three items per day starting at the window start, each with a random
label from the closed set and a random score; rLabel and rScore are its
two Math.random() draws. -/
def demoNewsItem (selectedStock : String) (fromSec : Int) (i : Nat)
    (rLabel rScore : ℚ) : NewsItem :=
  { datetime := fromSec + (i / 3 : Nat) * 86400 + (i % 3 : Nat) * 8 * 3600
    headline := selectedStock ++ " "
      ++ (["rises", "falls", "remains stable"]).getD (i % 3) "" ++ " in "
      ++ (["Asian", "European", "US"]).getD (i % 3) "" ++ " markets"
    source := "Demo Source"
    url := "#"
    sentiment := some
      { label := (["POSITIVE", "NEGATIVE", "NEUTRAL"]).getD (⌊rLabel * 3⌋).toNat ""
        score := 1 / 2 + rScore * (1 / 2) } }

/-- The demo news list of the catch of fetchData: timeRange * 3 items. -/
def demoNewsList (selectedStock : String) (fromSec : Int) (timeRange : Nat)
    (rnd : Nat → ℚ) : List NewsItem :=
  (List.range (timeRange * 3)).map
    (fun i => demoNewsItem selectedStock fromSec i (rnd (2 * i)) (rnd (2 * i + 1)))

/-- fetchData (lines 433 to 532).  The window of getDateRange(timeRange)
runs from todayDay - timeRange to todayDay (day bounds) and the window
start in seconds is the start of its first day.  news and quote are the
frozen outcomes of the two upstream fetches; classify is the total result
of analyzeSentiment per headline; hist feeds processSentimentData; env
feeds the ranking.  analyzeSentiment, processSentimentData and
findCompaniesBetterSentiment never throw, so the catch branch is taken
exactly when the news or the quote fetch rejects; it then keeps the error
message in the error state and substitutes demo data for the same window.
rndPrice, rndPeer and rndDemo are the random streams of the price filler,
the per-peer catches, and the demo quote and news. -/
def fetchData (selectedStock : String) (timeRange : Nat) (todayDay : Int)
    (nowSec : Int) (newsRes : Except String (List NewsItem))
    (quoteRes : Except String StockQuote) (classify : String → Sentiment)
    (hist : Option HistoricalData) (env : RankEnv)
    (rndPrice rndPeer rndDemo : Nat → ℚ) : FetchResult :=
  match newsRes, quoteRes with
  | .ok news, .ok quote =>
    let newsWithSentiment := news.map
      (fun it => { it with sentiment := some (classify it.headline) })
    let processedData := processSentimentData newsWithSentiment quote
      (todayDay - timeRange) todayDay hist rndPrice
    let avgSentiment := currentSentimentOf newsWithSentiment
    let betterCompanies := findCompaniesBetterSentiment selectedStock avgSentiment env rndPeer
    { error := none
      newsData := newsWithSentiment
      stockQuote := quote
      sentimentData := processedData
      currentSentiment := avgSentiment
      companiesWithBetterSentiment := betterCompanies }
  | newsRes, quoteRes =>
    let msg := match newsRes with
      | .error e => e
      | .ok _ => match quoteRes with
        | .error e => e
        | .ok _ => "An unexpected error occurred"
    let dQuote := demoQuote (rndDemo 0) nowSec
    let fromSec := (todayDay - timeRange) * 86400
    let demoNews := demoNewsList selectedStock fromSec timeRange (fun i => rndDemo (i + 1))
    let demoProcessedData := processSentimentData demoNews dQuote
      (todayDay - timeRange) todayDay hist rndPrice
    let demoSentiment : ℚ := 1 / 5
    let peerCompanies := findCompaniesBetterSentiment selectedStock demoSentiment env rndPeer
    { error := some msg
      newsData := demoNews
      stockQuote := dQuote
      sentimentData := demoProcessedData
      currentSentiment := demoSentiment
      companiesWithBetterSentiment := peerCompanies }

/-- Modelled from the spec (section 3, RankingResult): descending
aggregateSentiment with symbol-ascending tie-break.  Defined only to
state what order the claim asserts, for comparison with the order the
source produces. -/
def specRel (a b : CompanyWithSentiment) : Prop :=
  b.sentiment < a.sentiment ∨ (a.sentiment = b.sentiment ∧ a.symbol ≤ b.symbol)

instance : DecidableRel specRel := fun a b =>
  inferInstanceAs (Decidable (b.sentiment < a.sentiment
    ∨ (a.sentiment = b.sentiment ∧ a.symbol ≤ b.symbol)))

instance : IsTotal CompanyWithSentiment specRel := ⟨fun a b => by
  rcases lt_trichotomy a.sentiment b.sentiment with h | h | h
  · exact Or.inr (Or.inl h)
  · rcases le_total a.symbol b.symbol with hs | hs
    · exact Or.inl (Or.inr ⟨h, hs⟩)
    · exact Or.inr (Or.inr ⟨h.symm, hs⟩)
  · exact Or.inl (Or.inl h)⟩

instance : IsTrans CompanyWithSentiment specRel := ⟨fun a b c hab hbc => by
  rcases hab with hab | ⟨he1, hs1⟩
  · rcases hbc with hbc | ⟨he2, hs2⟩
    · exact Or.inl (lt_trans hbc hab)
    · exact Or.inl (he2 ▸ hab)
  · rcases hbc with hbc | ⟨he2, hs2⟩
    · exact Or.inl (by rw [he1]; exact hbc)
    · exact Or.inr ⟨he1.trans he2, le_trans hs1 hs2⟩⟩

/-- The ranking the claim describes, modelled from the spec words: keep
the candidates strictly above the baseline and sort them by specRel. -/
def rankingSpec (cands : List CompanyWithSentiment) (baseline : ℚ) :
    List CompanyWithSentiment :=
  (cands.filter (fun c => baseline < c.sentiment)).insertionSort specRel

/-- A concrete subject profile for closed instances. -/
def profS : CompanyProfile := ⟨"Subject Inc", "Technology", none⟩

/-- A concrete frozen environment whose two peers B and A (in that input
order) both aggregate to sentiment one half. -/
def cexEnv : RankEnv :=
  { subjectProfile := some profS
    peersApi := .ok ["B", "A"]
    stateProfile := none
    peerData := fun s => ⟨none, .ok [⟨3600, s, "src", "u", none⟩]⟩
    classify := fun _ => ⟨"POSITIVE", 1 / 2⟩ }

/-- A concrete frozen environment in which the subject profile lookup
fails (fetchCompanyProfile returns null). -/
def noProfileEnv : RankEnv :=
  { subjectProfile := none
    peersApi := .error ()
    stateProfile := none
    peerData := fun _ => ⟨none, .error ()⟩
    classify := fun _ => ⟨"NEUTRAL", 1 / 2⟩ }

theorem initBuckets_length (fromDay : Int) (n : Nat) :
    (initBuckets fromDay n).length = n := by
  induction n generalizing fromDay with
  | zero => rfl
  | succ k ih => simp [initBuckets, ih]

theorem addItem_length (m : List (Int × DayBucket)) (item : NewsItem) :
    (addItem m item).length = m.length := by
  unfold addItem
  cases item.sentiment <;> simp

theorem foldl_addItem_length (news : List NewsItem) (m : List (Int × DayBucket)) :
    (news.foldl addItem m).length = m.length := by
  induction news generalizing m with
  | nil => rfl
  | cons a l ih => rw [List.foldl_cons, ih, addItem_length]

theorem bucketsAfterNews_length (news : List NewsItem) (fromDay toDay : Int) :
    (bucketsAfterNews news fromDay toDay).length = (toDay + 1 - fromDay).toNat := by
  unfold bucketsAfterNews
  rw [foldl_addItem_length]
  exact initBuckets_length _ _

theorem toRecords_length (hist : Option HistoricalData) (basePrice : ℚ)
    (rnd : Nat → ℚ) (i : Nat) (l : List (Int × DayBucket)) :
    (toRecords hist basePrice rnd i l).length = l.length := by
  induction l generalizing i with
  | nil => rfl
  | cons p rest ih => simp [toRecords, ih]

theorem processSentimentData_length (news : List NewsItem) (quote : StockQuote)
    (fromDay toDay : Int) (hist : Option HistoricalData) (rnd : Nat → ℚ) :
    (processSentimentData news quote fromDay toDay hist rnd).length
      = (toDay + 1 - fromDay).toNat := by
  unfold processSentimentData
  rw [List.length_insertionSort, toRecords_length, bucketsAfterNews_length]

theorem mapFrom_length (f : Nat → α → β) (i : Nat) (l : List α) :
    (mapFrom f i l).length = l.length := by
  induction l generalizing i with
  | nil => rfl
  | cons a t ih => simp [mapFrom, ih]

theorem mem_toRecords {hist : Option HistoricalData} {basePrice : ℚ}
    {rnd : Nat → ℚ} {i : Nat} {l : List (Int × DayBucket)} {r : SentimentData}
    (h : r ∈ toRecords hist basePrice rnd i l) :
    ∃ p ∈ l, ∃ j, r = mkRecord hist basePrice p (rnd j) := by
  induction l generalizing i with
  | nil => simp [toRecords] at h
  | cons p rest ih =>
    simp only [toRecords, List.mem_cons] at h
    rcases h with h | h
    · exact ⟨p, List.mem_cons_self p rest, i, h⟩
    · rcases ih h with ⟨q, hq, j, hj⟩
      exact ⟨q, List.mem_cons_of_mem _ hq, j, hj⟩

/-- C1: for every window with fromDay at most toDay, processSentimentData
returns one record per calendar day of the window inclusive, that is
daysInWindow + 1 records, regardless of the news supplied (including
none), of the candle data and of the random draws. -/
theorem c1_daily_series_length (news : List NewsItem) (quote : StockQuote)
    (fromDay toDay : Int) (hist : Option HistoricalData) (rnd : Nat → ℚ)
    (h : fromDay ≤ toDay) :
    (processSentimentData news quote fromDay toDay hist rnd).length
      = (toDay - fromDay).toNat + 1 := by
  rw [processSentimentData_length]
  omega

/-- Witness for C1 at the empty news list and the three-day window from
day 0 to day 2. -/
theorem c1_daily_series_length_witness :
    (0 : Int) ≤ 2 ∧
    (processSentimentData [] ⟨100, 180, 140, 155, 148, 0⟩ 0 2 none (fun _ => 0)).length
      = ((2 : Int) - 0).toNat + 1 :=
  ⟨by decide,
   c1_daily_series_length [] ⟨100, 180, 140, 155, 148, 0⟩ 0 2 none (fun _ => 0) (by decide)⟩

/-- C8: every record of the daily series comes from a bucket of the
dailyData object, its avgSentiment is exactly 0 when that bucket has no
observations and otherwise is the arithmetic mean of the signed
sentiment values assigned to that bucket, and its volume is the bucket
volume. -/
theorem c8_bucket_mean (news : List NewsItem) (quote : StockQuote)
    (fromDay toDay : Int) (hist : Option HistoricalData) (rnd : Nat → ℚ)
    (r : SentimentData)
    (h : r ∈ processSentimentData news quote fromDay toDay hist rnd) :
    ∃ p ∈ bucketsAfterNews news fromDay toDay,
      r.date = p.1 ∧ r.volume = p.2.volume ∧
      (p.2.sentiments = [] → r.avgSentiment = 0) ∧
      (p.2.sentiments ≠ [] →
        r.avgSentiment = p.2.sentiments.sum / p.2.sentiments.length) := by
  unfold processSentimentData at h
  rw [List.mem_insertionSort] at h
  rcases mem_toRecords h with ⟨p, hp, j, rfl⟩
  refine ⟨p, hp, rfl, rfl, ?_, ?_⟩
  · intro he
    simp [mkRecord, meanOrZero, he]
  · intro he
    have hpos : 0 < p.2.sentiments.length := List.length_pos.mpr he
    simp [mkRecord, meanOrZero, hpos]

/-- Witness for C8: a one-day window with a single positive item. -/
theorem c8_bucket_mean_witness :
    (⟨0, 1 / 2, 90, 1⟩ : SentimentData) ∈
      processSentimentData [⟨3600, "h", "s", "u", some ⟨"POSITIVE", 1 / 2⟩⟩]
        ⟨100, 180, 140, 155, 148, 0⟩ 0 0 none (fun _ => 0) ∧
    ∃ p ∈ bucketsAfterNews [⟨3600, "h", "s", "u", some ⟨"POSITIVE", 1 / 2⟩⟩] 0 0,
      (⟨0, 1 / 2, 90, 1⟩ : SentimentData).date = p.1 ∧
      (⟨0, 1 / 2, 90, 1⟩ : SentimentData).volume = p.2.volume ∧
      (p.2.sentiments = [] → (⟨0, 1 / 2, 90, 1⟩ : SentimentData).avgSentiment = 0) ∧
      (p.2.sentiments ≠ [] →
        (⟨0, 1 / 2, 90, 1⟩ : SentimentData).avgSentiment
          = p.2.sentiments.sum / p.2.sentiments.length) := by
  have hmem : (⟨0, 1 / 2, 90, 1⟩ : SentimentData) ∈
      processSentimentData [⟨3600, "h", "s", "u", some ⟨"POSITIVE", 1 / 2⟩⟩]
        ⟨100, 180, 140, 155, 148, 0⟩ 0 0 none (fun _ => 0) := by
    unfold processSentimentData bucketsAfterNews bucketsInWindow
    rw [List.mem_insertionSort]
    norm_num [initBuckets, addItem, epochDay, signedValueProcess, toRecords,
      mkRecord, meanOrZero, priceForDay, round2, Int.fdiv]
  exact ⟨hmem, c8_bucket_mean _ _ _ _ _ _ _ hmem⟩

/-- C9: on the closed label set the signed-value rule is the stated
total deterministic mapping, and the copy of the rule used by fetchData
on items with an attached sentiment agrees with the copy used by
processSentimentData. -/
theorem c9_signed_mapping (s : Sentiment)
    (_h : s.label = "POSITIVE" ∨ s.label = "NEGATIVE" ∨ s.label = "NEUTRAL") :
    (s.label = "POSITIVE" → signedValueProcess s = s.score) ∧
    (s.label = "NEGATIVE" → signedValueProcess s = -s.score) ∧
    (s.label = "NEUTRAL" → signedValueProcess s = 0) ∧
    (∀ item : NewsItem, item.sentiment = some s →
      itemSignedValue item = signedValueProcess s) := by
  refine ⟨?_, ?_, ?_, ?_⟩
  · intro hl
    simp [signedValueProcess, hl]
  · intro hl
    simp [signedValueProcess, hl]
  · intro hl
    simp [signedValueProcess, hl]
  · intro item hi
    simp [itemSignedValue, hi, signedValueProcess]

/-- Witness for C9 at a concrete NEGATIVE observation. -/
theorem c9_signed_mapping_witness :
    ((⟨"NEGATIVE", 3 / 4⟩ : Sentiment).label = "POSITIVE" ∨
     (⟨"NEGATIVE", 3 / 4⟩ : Sentiment).label = "NEGATIVE" ∨
     (⟨"NEGATIVE", 3 / 4⟩ : Sentiment).label = "NEUTRAL") ∧
    ((⟨"NEGATIVE", 3 / 4⟩ : Sentiment).label = "POSITIVE" →
      signedValueProcess ⟨"NEGATIVE", 3 / 4⟩ = (⟨"NEGATIVE", 3 / 4⟩ : Sentiment).score) ∧
    ((⟨"NEGATIVE", 3 / 4⟩ : Sentiment).label = "NEGATIVE" →
      signedValueProcess ⟨"NEGATIVE", 3 / 4⟩ = -(⟨"NEGATIVE", 3 / 4⟩ : Sentiment).score) ∧
    ((⟨"NEGATIVE", 3 / 4⟩ : Sentiment).label = "NEUTRAL" →
      signedValueProcess ⟨"NEGATIVE", 3 / 4⟩ = 0) ∧
    (∀ item : NewsItem, item.sentiment = some ⟨"NEGATIVE", 3 / 4⟩ →
      itemSignedValue item = signedValueProcess ⟨"NEGATIVE", 3 / 4⟩) :=
  ⟨Or.inr (Or.inl rfl), c9_signed_mapping ⟨"NEGATIVE", 3 / 4⟩ (Or.inr (Or.inl rfl))⟩

/-- C10: in the overall-sentiment computation of fetchData an item with
no attached sentiment contributes 0 to the numerator while still being
counted in the denominator of the mean. -/
theorem c10_unscored_item_counted (l1 l2 : List NewsItem) (item : NewsItem)
    (h : item.sentiment = none) :
    currentSentimentOf (l1 ++ item :: l2)
      = ((l1 ++ l2).map itemSignedValue).sum
        / ((l1.length : ℚ) + (l2.length : ℚ) + 1) := by
  unfold currentSentimentOf meanOrZero
  have hz : itemSignedValue item = 0 := by simp [itemSignedValue, h]
  rw [if_pos (by simp)]
  simp only [List.map_append, List.map_cons, List.sum_append, List.sum_cons, hz,
    zero_add, List.length_map, List.length_append, List.length_cons]
  push_cast
  ring_nf

/-- Witness for C10: one unscored item among one scored item. -/
theorem c10_unscored_item_counted_witness :
    (⟨0, "n", "s", "u", none⟩ : NewsItem).sentiment = none ∧
    currentSentimentOf ([] ++ (⟨0, "n", "s", "u", none⟩ : NewsItem)
        :: [⟨0, "p", "s", "u", some ⟨"POSITIVE", 1⟩⟩])
      = ((([] : List NewsItem)
            ++ ([⟨0, "p", "s", "u", some ⟨"POSITIVE", 1⟩⟩] : List NewsItem)).map
          itemSignedValue).sum
        / ((List.length ([] : List NewsItem) : ℚ)
          + (List.length [(⟨0, "p", "s", "u", some ⟨"POSITIVE", 1⟩⟩ : NewsItem)] : ℚ) + 1) :=
  ⟨rfl, c10_unscored_item_counted [] [⟨0, "p", "s", "u", some ⟨"POSITIVE", 1⟩⟩]
    ⟨0, "n", "s", "u", none⟩ rfl⟩

theorem cex_candidates_eval :
    peerCandidates "S" cexEnv (fun _ => 0)
      = [⟨"B", "B", 1 / 2, "Unknown"⟩, ⟨"A", "A", 1 / 2, "Unknown"⟩] := by
  norm_num [peerCandidates, cexEnv, fetchPeerCompanies, mapFrom, processPeer,
    orElseStr, itemSignedValue, meanOrZero]

theorem cex_rank_eval :
    findCompaniesBetterSentiment "S" 0 cexEnv (fun _ => 0)
      = [⟨"B", "B", 1 / 2, "Unknown"⟩, ⟨"A", "A", 1 / 2, "Unknown"⟩] := by
  show ((peerCandidates "S" cexEnv (fun _ => 0)).filter
      (fun c => (0 : ℚ) < c.sentiment)).insertionSort sentGe = _
  rw [cex_candidates_eval]
  norm_num [List.filter, List.insertionSort, List.orderedInsert, sentGe]

theorem cex_spec_eval :
    rankingSpec (peerCandidates "S" cexEnv (fun _ => 0)) 0
      = [⟨"A", "A", 1 / 2, "Unknown"⟩, ⟨"B", "B", 1 / 2, "Unknown"⟩] := by
  rw [rankingSpec, cex_candidates_eval]
  have hBA : ¬ specRel ⟨"B", "B", 1 / 2, "Unknown"⟩ ⟨"A", "A", 1 / 2, "Unknown"⟩ := by
    rintro (h | ⟨-, h⟩)
    · exact absurd h (by norm_num)
    · rw [String.le_iff_toList_le] at h
      revert h
      decide
  norm_num [List.filter, List.insertionSort, List.orderedInsert, hBA]

/-- C2 counterexample: with two tied candidates supplied in the order B
then A, the source ranking keeps the input order B, A, while the claimed
order (descending sentiment with symbol-ascending tie-break) is A, B, so
the claim fails at this concrete input. -/
theorem c2_ranking_counterexample :
    findCompaniesBetterSentiment "S" 0 cexEnv (fun _ => 0)
      ≠ rankingSpec (peerCandidates "S" cexEnv (fun _ => 0)) 0 := by
  rw [cex_rank_eval, cex_spec_eval]
  intro heq
  simp at heq

/-- C2 (amended): on the success path the ranking result contains exactly
the candidates with aggregateSentiment strictly greater than the
baseline (it is a permutation of the filtered candidate list and every
member is above the baseline), it is sorted descending by
aggregateSentiment, and tied candidates keep their relative order from
the candidate list (stable sort); ties are not reordered by symbol. -/
theorem c2_ranking_amended (symbol : String) (baseline : ℚ) (env : RankEnv)
    (rnd : Nat → ℚ) (p : CompanyProfile) (h : env.subjectProfile = some p) :
    (findCompaniesBetterSentiment symbol baseline env rnd).Perm
        ((peerCandidates symbol env rnd).filter (fun c => baseline < c.sentiment)) ∧
    List.Sorted sentGe (findCompaniesBetterSentiment symbol baseline env rnd) ∧
    (∀ c ∈ findCompaniesBetterSentiment symbol baseline env rnd,
      baseline < c.sentiment) ∧
    (∀ a b : CompanyWithSentiment,
      List.Sublist [a, b]
        ((peerCandidates symbol env rnd).filter (fun c => baseline < c.sentiment)) →
      sentGe a b →
      List.Sublist [a, b] (findCompaniesBetterSentiment symbol baseline env rnd)) := by
  have hdef : findCompaniesBetterSentiment symbol baseline env rnd
      = ((peerCandidates symbol env rnd).filter
          (fun c => baseline < c.sentiment)).insertionSort sentGe := by
    unfold findCompaniesBetterSentiment
    rw [h]
  refine ⟨?_, ?_, ?_, ?_⟩
  · rw [hdef]
    exact List.perm_insertionSort _ _
  · rw [hdef]
    exact List.sorted_insertionSort _ _
  · intro c hc
    rw [hdef, List.mem_insertionSort, List.mem_filter] at hc
    exact of_decide_eq_true hc.2
  · intro a b hsub hab
    rw [hdef]
    exact List.pair_sublist_insertionSort hab hsub

/-- Witness for C2 (amended) at the concrete tied environment. -/
theorem c2_ranking_amended_witness :
    cexEnv.subjectProfile = some profS ∧
    (findCompaniesBetterSentiment "S" 0 cexEnv (fun _ => 0)).Perm
      ((peerCandidates "S" cexEnv (fun _ => 0)).filter
        (fun c => (0 : ℚ) < c.sentiment)) :=
  ⟨rfl, (c2_ranking_amended "S" 0 cexEnv (fun _ => 0) profS rfl).1⟩

theorem filter_keep_three (sym x1 x2 x3 x4 n1 n2 n3 n4 : String)
    (h12 : x1 ≠ x2) (h13 : x1 ≠ x3) (h14 : x1 ≠ x4) (h23 : x2 ≠ x3)
    (h24 : x2 ≠ x4) (h34 : x3 ≠ x4) :
    3 ≤ (([⟨n1, [x1]⟩, ⟨n2, [x2]⟩, ⟨n3, [x3]⟩, ⟨n4, [x4]⟩] : List DemoCompany).filter
      (fun c => !decide (sym ∈ c.symbols))).length := by
  by_cases e1 : sym = x1 <;> by_cases e2 : sym = x2 <;> by_cases e3 : sym = x3 <;>
    by_cases e4 : sym = x4 <;> simp_all [List.filter]

theorem demoBetterCompanies_length (sym : String) (b : ℚ) :
    (demoBetterCompanies sym b).length = 3 := by
  unfold demoBetterCompanies
  rw [mapFrom_length, List.length_take]
  simp only [decide_not]
  have h3 : 3 ≤ ((demoIndustries (demoIndustryOf sym)).filter
      (fun c => !decide (sym ∈ c.symbols))).length := by
    unfold demoIndustryOf
    split_ifs with h1 h2 h3 h4
    · rw [show demoIndustries "Technology"
          = [⟨"Microsoft Corp", ["MSFT"]⟩, ⟨"Alphabet Inc", ["GOOGL"]⟩,
             ⟨"Apple Inc", ["AAPL"]⟩, ⟨"Oracle Corp", ["ORCL"]⟩] from rfl]
      exact filter_keep_three sym "MSFT" "GOOGL" "AAPL" "ORCL" _ _ _ _
        (by decide) (by decide) (by decide) (by decide) (by decide) (by decide)
    · rw [show demoIndustries "Automotive"
          = [⟨"Tesla Inc", ["TSLA"]⟩, ⟨"Ford Motor Co", ["F"]⟩,
             ⟨"General Motors", ["GM"]⟩, ⟨"Toyota Motor Corp", ["TM"]⟩] from rfl]
      exact filter_keep_three sym "TSLA" "F" "GM" "TM" _ _ _ _
        (by decide) (by decide) (by decide) (by decide) (by decide) (by decide)
    · rw [show demoIndustries "Retail"
          = [⟨"Amazon.com Inc", ["AMZN"]⟩, ⟨"Walmart Inc", ["WMT"]⟩,
             ⟨"Target Corp", ["TGT"]⟩, ⟨"Costco Wholesale", ["COST"]⟩] from rfl]
      exact filter_keep_three sym "AMZN" "WMT" "TGT" "COST" _ _ _ _
        (by decide) (by decide) (by decide) (by decide) (by decide) (by decide)
    · rw [show demoIndustries "Financial Services"
          = [⟨"JP Morgan Chase", ["JPM"]⟩, ⟨"Bank of America", ["BAC"]⟩,
             ⟨"Goldman Sachs", ["GS"]⟩, ⟨"Morgan Stanley", ["MS"]⟩] from rfl]
      exact filter_keep_three sym "JPM" "BAC" "GS" "MS" _ _ _ _
        (by decide) (by decide) (by decide) (by decide) (by decide) (by decide)
    · rw [show demoIndustries "Technology"
          = [⟨"Microsoft Corp", ["MSFT"]⟩, ⟨"Alphabet Inc", ["GOOGL"]⟩,
             ⟨"Apple Inc", ["AAPL"]⟩, ⟨"Oracle Corp", ["ORCL"]⟩] from rfl]
      exact filter_keep_three sym "MSFT" "GOOGL" "AAPL" "ORCL" _ _ _ _
        (by decide) (by decide) (by decide) (by decide) (by decide) (by decide)
  omega

/-- C7 counterexample: when the subject profile lookup fails for AAPL,
the ranking returns the demo industry list, which is not the empty
result the claim states. -/
theorem c7_empty_counterexample :
    findCompaniesBetterSentiment "AAPL" (1 / 5) noProfileEnv (fun _ => 0) ≠ [] := by
  intro he
  have h := demoBetterCompanies_length "AAPL" (1 / 5)
  rw [show findCompaniesBetterSentiment "AAPL" (1 / 5) noProfileEnv (fun _ => 0)
      = demoBetterCompanies "AAPL" (1 / 5) from rfl] at he
  rw [he] at h
  simp at h

/-- C7 (amended): when peer resolution fails entirely (the subject
profile lookup returns null, the only way into the catch of
findCompaniesBetterSentiment), the ranking does not fail the whole
analysis, but instead of returning an empty result it returns the
deterministic industry demo list of exactly 3 placeholder peers. -/
theorem c7_total_failure_demo (symbol : String) (baseline : ℚ) (env : RankEnv)
    (rnd : Nat → ℚ) (h : env.subjectProfile = none) :
    (findCompaniesBetterSentiment symbol baseline env rnd).length = 3 := by
  unfold findCompaniesBetterSentiment
  rw [h]
  exact demoBetterCompanies_length symbol baseline

/-- Witness for C7 (amended) at a concrete failing environment. -/
theorem c7_total_failure_demo_witness :
    noProfileEnv.subjectProfile = none ∧
    (findCompaniesBetterSentiment "MSFT" 0 noProfileEnv (fun _ => 1)).length = 3 :=
  ⟨rfl, c7_total_failure_demo "MSFT" 0 noProfileEnv (fun _ => 1) rfl⟩

/-- C3: the pipeline is not idempotent on identical frozen inputs.  With
the same empty news list, the same quote and the same candle data
(present but holding no entry for the single-day window), two runs that
differ only in the Math.random() draws of the price filler produce
different daily series: stockPrice 95 for draw 0 and 100 for draw one
half.  The dates, avgSentiment and volume agree; the randomized price
filler breaks the claimed equality of the whole record. -/
theorem c3_idempotence_fails_on_random_price :
    processSentimentData [] ⟨100, 180, 140, 155, 148, 0⟩ 0 0 (some ⟨[], []⟩)
        (fun _ => 0)
      ≠ processSentimentData [] ⟨100, 180, 140, 155, 148, 0⟩ 0 0 (some ⟨[], []⟩)
        (fun _ => 1 / 2) := by
  have h1 : processSentimentData [] ⟨100, 180, 140, 155, 148, 0⟩ 0 0 (some ⟨[], []⟩)
      (fun _ => 0) = [⟨0, 0, 95, 0⟩] := by
    norm_num [processSentimentData, bucketsAfterNews, bucketsInWindow, initBuckets,
      toRecords, mkRecord, meanOrZero, priceForDay, round2, List.findIdx?,
      List.insertionSort, List.orderedInsert]
  have h2 : processSentimentData [] ⟨100, 180, 140, 155, 148, 0⟩ 0 0 (some ⟨[], []⟩)
      (fun _ => 1 / 2) = [⟨0, 0, 100, 0⟩] := by
    norm_num [processSentimentData, bucketsAfterNews, bucketsInWindow, initBuckets,
      toRecords, mkRecord, meanOrZero, priceForDay, round2, List.findIdx?,
      List.insertionSort, List.orderedInsert]
  rw [h1, h2]
  intro heq
  norm_num at heq

/-- C5: a peer candidate whose news fetch fails does not abort the
ranking (the catch produces a candidate), but its fallback
aggregateSentiment is the random draw scaled to the interval from -1 to
1, not a deterministic neutral or flagged value: at the same frozen
input, draws 0 and 1 give sentiments -1 and 1 and hence different
ranking entries. -/
theorem c5_random_peer_fallback :
    (processPeer "PEER" ⟨none, .error ()⟩ (fun _ => ⟨"NEUTRAL", 1 / 2⟩) 0).sentiment
      = -1 ∧
    (processPeer "PEER" ⟨none, .error ()⟩ (fun _ => ⟨"NEUTRAL", 1 / 2⟩) 1).sentiment
      = 1 ∧
    processPeer "PEER" ⟨none, .error ()⟩ (fun _ => ⟨"NEUTRAL", 1 / 2⟩) 0
      ≠ processPeer "PEER" ⟨none, .error ()⟩ (fun _ => ⟨"NEUTRAL", 1 / 2⟩) 1 := by
  refine ⟨by norm_num [processPeer], by norm_num [processPeer], ?_⟩
  intro heq
  have h := congrArg CompanyWithSentiment.sentiment heq
  norm_num [processPeer] at h

/-- C6: when the classifier call fails, analyzeSentiment does not signal
an unavailable condition and does not leave the headline unscored; the
catch fabricates a sentiment whose label is drawn at random from the
closed label set, as the three draws 0, one half and five sixths show. -/
theorem c6_fabricated_label_on_failure :
    (analyzeSentiment (.error ()) 0 0).label = "POSITIVE" ∧
    (analyzeSentiment (.error ()) (1 / 2) 0).label = "NEGATIVE" ∧
    (analyzeSentiment (.error ()) (5 / 6) 0).label = "NEUTRAL" := by
  refine ⟨?_, ?_, ?_⟩
  · norm_num [analyzeSentiment, List.getD]
  · norm_num [analyzeSentiment, List.getD]
  · norm_num [analyzeSentiment, List.getD]
    rfl

/-- C4: whenever the news fetch or the quote fetch fails, the state
written by fetchData carries the error message (error.isSome, the
degradation flag the caller can observe), and the substituted demo daily
series still has one record per calendar day of the requested window,
that is timeRange + 1 records. -/
theorem c4_degraded_flag_and_window (selectedStock : String) (timeRange : Nat)
    (todayDay nowSec : Int) (newsRes : Except String (List NewsItem))
    (quoteRes : Except String StockQuote) (classify : String → Sentiment)
    (hist : Option HistoricalData) (env : RankEnv) (rndPrice rndPeer rndDemo : Nat → ℚ)
    (h : (∃ e, newsRes = Except.error e) ∨ (∃ e, quoteRes = Except.error e)) :
    (fetchData selectedStock timeRange todayDay nowSec newsRes quoteRes classify
      hist env rndPrice rndPeer rndDemo).error.isSome = true ∧
    (fetchData selectedStock timeRange todayDay nowSec newsRes quoteRes classify
      hist env rndPrice rndPeer rndDemo).sentimentData.length = timeRange + 1 := by
  have hlen : ∀ news quote rnd,
      (processSentimentData news quote (todayDay - timeRange) todayDay hist rnd).length
        = timeRange + 1 := by
    intro news quote rnd
    rw [processSentimentData_length]
    omega
  rcases h with ⟨e, he⟩ | ⟨e, he⟩
  · subst he
    cases quoteRes <;> exact ⟨rfl, hlen _ _ _⟩
  · subst he
    cases newsRes <;> exact ⟨rfl, hlen _ _ _⟩

/-- Witness for C4 at a concrete failing news fetch and a one-day
range. -/
theorem c4_degraded_flag_and_window_witness :
    ((∃ e, (Except.error "Failed to fetch news" : Except String (List NewsItem))
        = Except.error e) ∨
      (∃ e, (Except.ok ⟨1, 1, 1, 1, 1, 0⟩ : Except String StockQuote)
        = Except.error e)) ∧
    (fetchData "AAPL" 1 0 0 (Except.error "Failed to fetch news")
      (Except.ok ⟨1, 1, 1, 1, 1, 0⟩) (fun _ => ⟨"NEUTRAL", 1 / 2⟩) none noProfileEnv
      (fun _ => 0) (fun _ => 0) (fun _ => 0)).error.isSome = true ∧
    (fetchData "AAPL" 1 0 0 (Except.error "Failed to fetch news")
      (Except.ok ⟨1, 1, 1, 1, 1, 0⟩) (fun _ => ⟨"NEUTRAL", 1 / 2⟩) none noProfileEnv
      (fun _ => 0) (fun _ => 0) (fun _ => 0)).sentimentData.length = 1 + 1 :=
  ⟨Or.inl ⟨"Failed to fetch news", rfl⟩,
   c4_degraded_flag_and_window "AAPL" 1 0 0 (Except.error "Failed to fetch news")
    (Except.ok ⟨1, 1, 1, 1, 1, 0⟩) (fun _ => ⟨"NEUTRAL", 1 / 2⟩) none noProfileEnv
    (fun _ => 0) (fun _ => 0) (fun _ => 0)
    (Or.inl ⟨"Failed to fetch news", rfl⟩)⟩

end MSA
